import Mathlib

/-
  Verification development for the multi-network contract-interaction layer of
  the invoicing/payment dashboard.  The definitions below are a shallow
  embedding of the TypeScript sources:
    - src/component/pages/pay/invoice_checkout.tsx  (invoice lookup and payment)
    - src/component/pages/create_invoice.tsx        (invoice creation, unit scaling)
    - src/component/dashboard.tsx                   (network registry, analytics)
    - src/component/pages/paymentAutomation.tsx     (allowance sequencing, polling)
  On-chain state and RPC endpoints are modelled as explicit oracle parameters;
  every flow returns the list of write calls it would submit together with its
  outcome, so that properties about submitted transactions become statements
  about those lists.
-/

/- ## String helpers (models of the JavaScript string operations used) -/

/-- Splits a character list at every dot, mirroring the use of
String.prototype.split with separator "." in the sources. -/
def splitOnDot : List Char → List (List Char)
  | [] => [[]]
  | c :: rest =>
    match splitOnDot rest with
    | [] => [[]]
    | g :: gs => if c = '.' then [] :: g :: gs else (c :: g) :: gs

/-- Parses a nonempty all-digit character list as a natural number. -/
def digitsToNat? (cs : List Char) : Option Nat :=
  if cs.isEmpty then none
  else cs.foldl (fun acc c =>
    match acc with
    | none => none
    | some n => if c.isDigit then some (n * 10 + (c.toNat - 48)) else none) (some 0)

/-- Model of ethers.parseUnits: scales the decimal string s by 10 ^ d and
fails when the string is not a plain decimal numeral or carries more than d
fractional digits.  Signs and exponent forms are rejected by the form inputs
of the application and are not modelled. -/
def parseUnits (s : String) (d : Nat) : Option Nat :=
  match splitOnDot s.data with
  | [w] => (digitsToNat? w).map (· * 10 ^ d)
  | [w, f] =>
    match digitsToNat? w, digitsToNat? f with
    | some wn, some fn =>
      if f.length ≤ d then some (wn * 10 ^ d + fn * 10 ^ (d - f.length)) else none
    | _, _ => none
  | _ => none

/-- Model of ethers.parseEther, which is parseUnits with 18 decimals. -/
def parseEther (s : String) : Option Nat := parseUnits s 18

/-- Model of the validation `!amount || isNaN(Number(amount)) || Number(amount) <= 0`
for plain decimal numerals: the string parses and its value is positive. -/
def jsNumberPos (s : String) : Bool :=
  match splitOnDot s.data with
  | [w] => match digitsToNat? w with | some n => n > 0 | none => false
  | [w, f] =>
    match digitsToNat? w, digitsToNat? f with
    | some wn, some fn => wn > 0 || fn > 0
    | _, _ => false
  | _ => false

def isHexChar (c : Char) : Bool :=
  c.isDigit || ('a' ≤ c && c ≤ 'f') || ('A' ≤ c && c ≤ 'F')

/-- Model of ethers.isAddress: 0x followed by 40 hexadecimal characters.
Checksum validation of mixed-case addresses is not modelled. -/
def isAddressLike (s : String) : Bool :=
  match s.data with
  | '0' :: 'x' :: rest => rest.length == 40 && rest.all isHexChar
  | _ => false

/-- Model of String.prototype.trim restricted to ordinary spaces. -/
def trimStr (s : String) : String :=
  ⟨((s.data.dropWhile (· = ' ')).reverse.dropWhile (· = ' ')).reverse⟩

def lowerChar (c : Char) : Char :=
  if 'A' ≤ c ∧ c ≤ 'Z' then Char.ofNat (c.toNat + 32) else c

/-- Model of String.prototype.toLowerCase for the ASCII addresses compared in
the sources. -/
def lowerStr (s : String) : String := ⟨s.data.map lowerChar⟩

def padZeros (s : String) (n : Nat) : String :=
  ⟨List.replicate (n - s.data.length) '0' ++ s.data⟩

/-- Model of Number(raw) / 10 ** d rendered with Number.prototype.toFixed p:
the rational raw / 10 ^ d written with exactly p fractional digits, rounding
half up (the displayed checkout amounts are exact at this precision). -/
def toFixedOfScaled (raw : Nat) (d p : Nat) : String :=
  let scaled := (raw * 10 ^ p + (10 ^ d) / 2) / 10 ^ d
  let ip := scaled / 10 ^ p
  let fp := scaled % 10 ^ p
  if p = 0 then toString ip else toString ip ++ "." ++ padZeros (toString fp) p

/- ## Environment-supplied configuration (import.meta.env) -/

/-- Environment variables supplying contract addresses; absent variables are
none (the automation page defaults them to the empty string itself). -/
structure Env where
  invoiceContractBaseSepolia : Option String
  basepayMorph : Option String
  crosschainAutomationBaseSepolia : Option String
  crosschainAutomationMorphHolesky : Option String
deriving DecidableEq

/- ## Checkout page (invoice_checkout.tsx): data model and network registry -/

/-- ethers.ZeroAddress. -/
def ZeroAddress : String := "0x0000000000000000000000000000000000000000"

/-- ETH_ADDRESS in the checkout page equals ethers.ZeroAddress. -/
def ETH_ADDRESS : String := ZeroAddress

def USDC_BASE_SEPOLIA_ADDRESS : String := "0x036CbD53842c5426634e7929541eC2318f3dCF7e"

def USDT_MORPH_HOLESKY_ADDRESS : String := "0x9E12AD42c4E4d2acFBADE01a96446e48e6764B98"

structure TokenInfo where
  symbol : String
  decimals : Nat
  logo : String
deriving DecidableEq

structure CheckoutNetworkConfig where
  chainId : Nat
  name : String
  contractAddress : Option String
  tokens : List (String × TokenInfo)
deriving DecidableEq

def checkoutBaseSepolia (env : Env) : CheckoutNetworkConfig :=
  { chainId := 84532
    name := "Base Sepolia"
    contractAddress := env.invoiceContractBaseSepolia
    tokens :=
      [(USDC_BASE_SEPOLIA_ADDRESS,
        { symbol := "USDC", decimals := 6
          logo := "https://assets.coingecko.com/coins/images/6319/standard/usdc.png?1696506694" }),
       (ETH_ADDRESS,
        { symbol := "ETH", decimals := 18
          logo := "https://assets.coingecko.com/coins/images/279/standard/ethereum.png?1696501628" })] }

def checkoutMorphHolesky (env : Env) : CheckoutNetworkConfig :=
  { chainId := 2810
    name := "Morph Holesky"
    contractAddress := env.basepayMorph
    tokens :=
      [(USDT_MORPH_HOLESKY_ADDRESS,
        { symbol := "USDT", decimals := 18
          logo := "https://assets.coingecko.com/coins/images/325/standard/Tether.png?1696501661" }),
       (ETH_ADDRESS,
        { symbol := "ETH", decimals := 18
          logo := "https://assets.coingecko.com/coins/images/279/standard/ethereum.png?1696501628" })] }

def checkoutNETWORK_CONFIGS (env : Env) : List (Nat × CheckoutNetworkConfig) :=
  [(84532, checkoutBaseSepolia env), (2810, checkoutMorphHolesky env)]

/-- NETWORK_CONFIGS[chainId] || NETWORK_CONFIGS[84532] in the checkout page. -/
def checkoutCurrentNetwork (env : Env) (chainId : Nat) : CheckoutNetworkConfig :=
  ((checkoutNETWORK_CONFIGS env).lookup chainId).getD (checkoutBaseSepolia env)

/-- The direct JSON-RPC endpoint selected by the inline conditionals
  chainId === 2810 ? morph url : chainId === 84532 ? base url : undefined
that appear in fetchInvoice and handlePay. -/
def directRpcUrl (chainId : Nat) : Option String :=
  if chainId = 2810 then some "https://rpc-quicknode-holesky.morphl2.io"
  else if chainId = 84532 then some "https://sepolia.base.org"
  else none

/-- Invoice record as mapped from the positional contract tuple
(inv[0] .. inv[8]). -/
structure InvoiceData where
  merchant : String
  token : String
  amount : Nat
  dueBy : Nat
  isPaid : Bool
  memo : String
  logoURI : String
  description : String
  paidAt : Nat
deriving DecidableEq

/-- The provider a flow ends up using: the injected wallet provider or a
direct JSON-RPC fallback with its endpoint URL. -/
inductive ProviderChoice
  | injected
  | fallbackRpc (url : String)
deriving DecidableEq

inductive FetchOutcome
  | noHash
  | contractNotDeployed
  | foundOnOther (networkName : String)
  | notFoundGeneric
  | success (inv : InvoiceData)
deriving DecidableEq

structure FetchResult where
  providerUsed : Option ProviderChoice
  outcome : FetchOutcome
deriving DecidableEq

/-- The secondary lookup loop of fetchInvoice over the other registered
networks: networks without a configured contract address are skipped, and the
loop stops at the first network whose invoice record has a non-zero merchant.
Both registered networks have a direct RPC endpoint, so the testProvider
construction never receives an undefined URL. -/
def findInvoiceOnOthers (chains : Nat → String → InvoiceData) (h : String) :
    List CheckoutNetworkConfig → Option String
  | [] => none
  | net :: rest =>
    match net.contractAddress with
    | none => findInvoiceOnOthers chains h rest
    | some _ =>
      if (chains net.chainId h).merchant ≠ ZeroAddress then some net.name
      else findInvoiceOnOthers chains h rest

/-- fetchInvoice from the checkout page.  chains is the oracle giving the
invoice record stored on a given chain for a given hash; providerChainId is
what the injected provider reports, wagmiChainId what the wallet library
reports.  On a provider/target disagreement the code switches to the direct
RPC endpoint of the target chain when one is registered, without consulting
the wallet-reported chain id, and otherwise keeps the injected provider. -/
def fetchInvoice (env : Env) (providerChainId wagmiChainId : Nat)
    (chains : Nat → String → InvoiceData) (hash? : Option String) : FetchResult :=
  match hash? with
  | none => { providerUsed := none, outcome := .noHash }
  | some h =>
    let net := checkoutCurrentNetwork env wagmiChainId
    let choice : ProviderChoice :=
      if providerChainId ≠ net.chainId then
        match directRpcUrl net.chainId with
        | some url => .fallbackRpc url
        | none => .injected
      else .injected
    match net.contractAddress with
    | none => { providerUsed := some choice, outcome := .contractNotDeployed }
    | some _ =>
      let readChain := match choice with
        | .injected => providerChainId
        | .fallbackRpc _ => net.chainId
      let inv := chains readChain h
      if inv.merchant = ZeroAddress then
        let others := ((checkoutNETWORK_CONFIGS env).map Prod.snd).filter
          (fun n => n.chainId != net.chainId)
        match findInvoiceOnOthers chains h others with
        | some nm => { providerUsed := some choice, outcome := .foundOnOther nm }
        | none => { providerUsed := some choice, outcome := .notFoundGeneric }
      else { providerUsed := some choice, outcome := .success inv }

/- ## Checkout page: handlePay -/

/-- The view of the ERC20 token contract that handlePay reads:
whether code exists at the token address, the current allowance, and the
allowance an additional read after approval confirmation would return.
handlePay never performs such a re-read, so the last field is unused there. -/
structure Erc20View where
  codeExists : Bool
  allowance : Nat
  postApprovalAllowance : Nat
deriving DecidableEq

inductive CheckoutWrite
  | approve (token spender : String) (amount : Nat)
  | payInvoice (contractAddr invoiceHash : String) (value : Nat)
deriving DecidableEq

inductive CheckoutOutcome
  | missingData
  | mismatchError
  | tokenNotFound
  | success
deriving DecidableEq

structure HandlePayResult where
  providerUsed : Option ProviderChoice
  writes : List CheckoutWrite
  outcome : CheckoutOutcome
deriving DecidableEq

def usedFallback (r : HandlePayResult) : Bool :=
  match r.providerUsed with
  | some (.fallbackRpc _) => true
  | _ => false

/-- handlePay from the checkout page.  The contract object exists exactly when
the wallet client is available and a contract address is configured, so the
initial `!contract || !address || !invoiceData` guard is modelled by the first
match; the redundant walletClient rechecks inside the body are subsumed by the
same guard.  For a token payment the provider is re-resolved: a provider chain
that disagrees with the target is tolerated only when the wallet-reported
chain matches the target, in which case the direct RPC endpoint is used when
registered (and the injected provider is silently kept when not); otherwise
the flow stops with a mismatch error before submitting anything.  When the
allowance is short an approval for exactly the invoice amount is submitted,
with no confirmation wait and no allowance re-read, and payInvoice is then
submitted unconditionally. -/
def handlePay (env : Env) (providerChainId wagmiChainId : Nat)
    (address : Option String) (walletConnected : Bool)
    (invoiceData : Option InvoiceData) (invoiceHash : String)
    (erc : Erc20View) : HandlePayResult :=
  let net := checkoutCurrentNetwork env wagmiChainId
  match invoiceData, net.contractAddress with
  | some inv, some ca =>
    if address = none ∨ walletConnected = false then
      { providerUsed := none, writes := [], outcome := .missingData }
    else if inv.token ≠ ETH_ADDRESS then
      let choice? : Option ProviderChoice :=
        if providerChainId = net.chainId then some .injected
        else if wagmiChainId = net.chainId then
          match directRpcUrl net.chainId with
          | some url => some (.fallbackRpc url)
          | none => some .injected
        else none
      match choice? with
      | none => { providerUsed := none, writes := [], outcome := .mismatchError }
      | some choice =>
        if erc.codeExists = false then
          { providerUsed := some choice, writes := [], outcome := .tokenNotFound }
        else
          let approvals :=
            if erc.allowance < inv.amount then [CheckoutWrite.approve inv.token ca inv.amount]
            else []
          { providerUsed := some choice
            writes := approvals ++ [CheckoutWrite.payInvoice ca invoiceHash 0]
            outcome := .success }
    else
      { providerUsed := none
        writes := [CheckoutWrite.payInvoice ca invoiceHash inv.amount]
        outcome := .success }
  | _, _ => { providerUsed := none, writes := [], outcome := .missingData }

/-- Token decimals and display precision used by the checkout page when
rendering the invoice amount: tokenInfo?.decimals || 18, rendered with
toFixed(2) for 6-decimal tokens and toFixed(4) otherwise. -/
def checkoutDisplayAmount (net : CheckoutNetworkConfig) (tokenAddr : String)
    (raw : Nat) : String :=
  let d0 := ((net.tokens.lookup tokenAddr).map TokenInfo.decimals).getD 18
  let d := if d0 = 0 then 18 else d0
  toFixedOfScaled raw d (if d = 6 then 2 else 4)

/- ## Create-invoice page (part_001): registry and unit scaling -/

structure TokenOption where
  name : String
  address : String
  logo : String
deriving DecidableEq

def USDC_TOKEN_BASE_SEPOLIA : TokenOption :=
  { name := "USDC", address := USDC_BASE_SEPOLIA_ADDRESS
    logo := "https://assets.coingecko.com/coins/images/6319/standard/usdc.png?1696506694" }

def USDT_TOKEN_MORPH_HOLESKY : TokenOption :=
  { name := "USDT", address := USDT_MORPH_HOLESKY_ADDRESS
    logo := "https://assets.coingecko.com/coins/images/325/standard/Tether.png?1696501661" }

structure CreateNetworkConfig where
  chainId : Nat
  name : String
  contractAddress : Option String
  supportedTokens : List TokenOption
deriving DecidableEq

def createBaseSepolia (env : Env) : CreateNetworkConfig :=
  { chainId := 84532, name := "Base Sepolia"
    contractAddress := env.invoiceContractBaseSepolia
    supportedTokens := [USDC_TOKEN_BASE_SEPOLIA] }

def createMorphHolesky (env : Env) : CreateNetworkConfig :=
  { chainId := 2810, name := "Morph Holesky"
    contractAddress := env.basepayMorph
    supportedTokens := [USDT_TOKEN_MORPH_HOLESKY] }

def createNETWORK_CONFIGS (env : Env) : List (Nat × CreateNetworkConfig) :=
  [(84532, createBaseSepolia env), (2810, createMorphHolesky env)]

/-- NETWORK_CONFIGS[chainId] || NETWORK_CONFIGS[84532] in the create-invoice
page. -/
def createCurrentNetwork (env : Env) (chainId : Nat) : CreateNetworkConfig :=
  ((createNETWORK_CONFIGS env).lookup chainId).getD (createBaseSepolia env)

/-- The per-address token decimal table inlined in handleSubmit of the
create-invoice page for non-native tokens. -/
def createInvoiceTokenDecimals (token : String) : Nat :=
  if token = USDC_BASE_SEPOLIA_ADDRESS then 6
  else if token = USDT_MORPH_HOLESKY_ADDRESS then 18
  else 18

/-- amountWei as computed by handleSubmit of the create-invoice page:
parseEther for the native asset (zero address), parseUnits with the token's
tabulated decimals otherwise. -/
def amountWei (token : String) (amount : String) : Option Nat :=
  if token = ETH_ADDRESS then parseEther amount
  else parseUnits amount (createInvoiceTokenDecimals token)

/- ## Dashboard (dashboard.tsx): registry and analytics aggregation -/

structure NetToken where
  address : String
  symbol : String
  decimals : Nat
  logo : String
deriving DecidableEq

structure DashNetworkConfig where
  chainId : Nat
  name : String
  token : NetToken
  contractAddress : Option String
deriving DecidableEq

def dashboardBaseSepolia (env : Env) : DashNetworkConfig :=
  { chainId := 84532, name := "Base Sepolia"
    token :=
      { address := USDC_BASE_SEPOLIA_ADDRESS, symbol := "USDC", decimals := 6
        logo := "https://assets.coingecko.com/coins/images/6319/standard/usdc.png?1696506694" }
    contractAddress := env.invoiceContractBaseSepolia }

def dashboardMorphHolesky (env : Env) : DashNetworkConfig :=
  { chainId := 2810, name := "Morph Holesky"
    token :=
      { address := USDT_MORPH_HOLESKY_ADDRESS, symbol := "USDT", decimals := 18
        logo := "https://assets.coingecko.com/coins/images/325/standard/Tether.png?1696501661" }
    contractAddress := env.basepayMorph }

def dashboardNETWORK_CONFIGS (env : Env) : List (Nat × DashNetworkConfig) :=
  [(84532, dashboardBaseSepolia env), (2810, dashboardMorphHolesky env)]

/-- NETWORK_CONFIGS[chainId] || NETWORK_CONFIGS[84532] in the dashboard. -/
def dashboardCurrentNetwork (env : Env) (chainId : Nat) : DashNetworkConfig :=
  ((dashboardNETWORK_CONFIGS env).lookup chainId).getD (dashboardBaseSepolia env)

/-- UTC calendar date, with month in 1..12 as produced by the conversion
below; the bucket dates of a window are given in the same convention. -/
structure DateTriple where
  year : Nat
  month : Nat
  day : Nat
deriving DecidableEq

/-- Conversion from a day count since the Unix epoch to the proleptic
Gregorian calendar date, the date arithmetic behind the getUTCFullYear,
getUTCMonth and getUTCDate reads in the dashboard. -/
def civilFromDays (days : Nat) : DateTriple :=
  let z := days + 719468
  let era := z / 146097
  let doe := z % 146097
  let yoe := (doe - doe / 1460 + doe / 36524 - doe / 146096) / 365
  let doy := doe - (365 * yoe + yoe / 4 - yoe / 100)
  let mp := (5 * doy + 2) / 153
  let d := doy - (153 * mp + 2) / 5 + 1
  let m := if mp < 10 then mp + 3 else mp - 9
  let y := era * 400 + yoe + (if m ≤ 2 then 1 else 0)
  { year := y, month := m, day := d }

/-- UTC date of new Date(paidAt * 1000). -/
def dateOfUnixSeconds (t : Nat) : DateTriple := civilFromDays (t / 86400)

/-- Bucket granularity of the selected analytics period: day buckets for the
week and 30-day views, month buckets for the 12-month view. -/
inductive Granularity
  | day
  | month
deriving DecidableEq

/-- The compareFunction of getAnalyticsData: UTC date-component equality. -/
def sameBucket (g : Granularity) (paid target : DateTriple) : Bool :=
  match g with
  | .day => paid.year == target.year && paid.month == target.month && paid.day == target.day
  | .month => paid.year == target.year && paid.month == target.month

/-- A window specification: the sequence of bucket dates, the granularity and
the label function chosen by the selected period. -/
structure WindowSpec where
  dates : List DateTriple
  gran : Granularity
  label : DateTriple → String

/-- The per-address token decimal table inlined in the reduce step of
getAnalyticsData. -/
def analyticsTokenDecimals (token : String) : Nat :=
  if token = USDC_BASE_SEPOLIA_ADDRESS then 6
  else if token = USDT_MORPH_HOLESKY_ADDRESS then 18
  else 18

structure AnalyticsBar where
  label : String
  value : ℚ
  date : DateTriple
deriving DecidableEq

/-- getAnalyticsData from the dashboard: for each bucket date, the paid
invoices with a positive paidAt whose paid date falls in the bucket are
summed, each amount scaled down by its token's tabulated decimals. -/
def getAnalyticsData (invoiceList : List InvoiceData) (w : WindowSpec) :
    List AnalyticsBar :=
  w.dates.map fun date =>
    let total :=
      ((invoiceList.filter (fun inv => inv.isPaid && inv.paidAt > 0)).filter
        (fun inv => sameBucket w.gran (dateOfUnixSeconds inv.paidAt) date)).foldl
        (fun sum inv => sum + (inv.amount : ℚ) / 10 ^ analyticsTokenDecimals inv.token) 0
    { label := w.label date, value := total, date := date }

/- ## Payment automation page (paymentAutomation.tsx) -/

/-- Network configuration of the automation page; the contract address is the
environment variable with a default of the empty string, and emptiness is the
truthiness check used by the page. -/
structure AutoNetworkConfig where
  chainId : Nat
  name : String
  contractAddress : String
  token : NetToken
deriving DecidableEq

def autoBaseSepolia (env : Env) : AutoNetworkConfig :=
  { chainId := 84532, name := "Base Sepolia"
    contractAddress := env.crosschainAutomationBaseSepolia.getD ""
    token :=
      { address := USDC_BASE_SEPOLIA_ADDRESS, symbol := "USDC", decimals := 6
        logo := "https://assets.coingecko.com/coins/images/6319/standard/usdc.png?1696506694" } }

def autoMorphHolesky (env : Env) : AutoNetworkConfig :=
  { chainId := 2810, name := "Morph Holesky"
    contractAddress := env.crosschainAutomationMorphHolesky.getD ""
    token :=
      { address := USDT_MORPH_HOLESKY_ADDRESS, symbol := "USDT", decimals := 18
        logo := "https://assets.coingecko.com/coins/images/325/standard/Tether.png?1696501661" } }

def autoNETWORK_CONFIGS (env : Env) : List (Nat × AutoNetworkConfig) :=
  [(84532, autoBaseSepolia env), (2810, autoMorphHolesky env)]

/-- NETWORK_CONFIGS[chainId] || NETWORK_CONFIGS[84532] in the automation
page. -/
def autoCurrentNetwork (env : Env) (chainId : Nat) : AutoNetworkConfig :=
  ((autoNETWORK_CONFIGS env).lookup chainId).getD (autoBaseSepolia env)

/-- The token-contract state approveToken interacts with: the allowance a
read returns now, and the allowance a read returns after an approval
transaction has been confirmed. -/
structure AllowanceState where
  allowance : Nat
  postApprovalAllowance : Nat
deriving DecidableEq

/-- The observable interactions of approveToken with the token contract. -/
inductive ApproveStep
  | readAllowance
  | submitApprove (spender : String) (amount : Nat)
  | waitConfirmation
deriving DecidableEq

structure ApproveResult where
  steps : List ApproveStep
  ok : Bool
deriving DecidableEq

/-- approveToken from the automation page: reads the allowance, and when it
is short submits an approval for exactly amountRaw, waits for its receipt,
re-reads the allowance, and reports failure when it is still short; when the
allowance already suffices it returns with no further interaction. -/
def approveToken (spender : String) (amountRaw : Nat) (st : AllowanceState) :
    ApproveResult :=
  if st.allowance < amountRaw then
    { steps := [.readAllowance, .submitApprove spender amountRaw, .waitConfirmation,
                .readAllowance]
      ok := decide (amountRaw ≤ st.postApprovalAllowance) }
  else
    { steps := [.readAllowance], ok := true }

/-- Write calls the automation page can submit. -/
inductive AutoWrite
  | approve (spender : String) (amount : Nat)
  | schedulePaymentWithToken (token : String) (amount : Nat)
      (recipients : List String) (unixTime : Nat)
  | executePaymentNowWithToken (token : String) (amount : Nat)
      (recipients : List String)
deriving DecidableEq

/-- The approval transactions contained in an approveToken trace. -/
def approvalWrites (r : ApproveResult) : List AutoWrite :=
  r.steps.filterMap fun s =>
    match s with
    | .submitApprove sp amt => some (.approve sp amt)
    | _ => none

/-- A write call that moves value (everything except an approval). -/
def valueMovingWrite (w : AutoWrite) : Bool :=
  match w with
  | .approve _ _ => false
  | _ => true

inductive AutoOutcome
  | walletNotConnected
  | invalidAmount
  | noValidRecipients
  | invalidRecipients
  | noContract
  | wrongNetwork
  | parseError
  | insufficientBalance
  | approvalFailed
  | noScheduledDate
  | success
deriving DecidableEq

/-- The on-chain state submitPayment reads: the token balance of the account
and the allowance state used by approveToken. -/
structure AutoChain where
  balance : Nat
  allw : AllowanceState
deriving DecidableEq

def validRecipientPred (a : String) : Bool :=
  trimStr a != "" && isAddressLike (trimStr a)

def invalidRecipientPred (a : String) : Bool :=
  trimStr a != "" && !isAddressLike (trimStr a)

/-- submitPayment from the automation page: validation, signer network check,
unit scaling by the configured token decimals, balance check, allowance
sequencing through approveToken, then the single value-moving write
(schedulePaymentWithToken or executePaymentNowWithToken).  The scheduled-date
check happens after the approval step, as in the source. -/
def submitPayment (env : Env) (wagmiChainId : Nat) (connected : Bool)
    (address : Option String) (amount : String) (recipients : List String)
    (scheduled : Bool) (scheduledDate : Option Nat) (ch : AutoChain) :
    List AutoWrite × AutoOutcome :=
  let net := autoCurrentNetwork env wagmiChainId
  if connected = false ∨ address = none then ([], .walletNotConnected)
  else if jsNumberPos amount = false then ([], .invalidAmount)
  else
    let validRecipients := recipients.filter validRecipientPred
    if validRecipients = [] then ([], .noValidRecipients)
    else if recipients.filter invalidRecipientPred ≠ [] then ([], .invalidRecipients)
    else if net.contractAddress = "" then ([], .noContract)
    else if wagmiChainId ≠ net.chainId then ([], .wrongNetwork)
    else
      match parseUnits amount net.token.decimals with
      | none => ([], .parseError)
      | some amountRaw =>
        if ch.balance < amountRaw then ([], .insufficientBalance)
        else
          let ar := approveToken net.contractAddress amountRaw ch.allw
          let aw := approvalWrites ar
          if ar.ok = false then (aw, .approvalFailed)
          else if scheduled then
            match scheduledDate with
            | none => (aw, .noScheduledDate)
            | some t =>
              (aw ++ [.schedulePaymentWithToken net.token.address amountRaw
                        validRecipients t], .success)
          else
            (aw ++ [.executePaymentNowWithToken net.token.address amountRaw
                      validRecipients], .success)

/-- A payment as returned by getPaymentDetails plus getPaymentRecipients,
before the client-side mapping; the index in the fetched list is its id. -/
structure OnChainPayment where
  creator : String
  totalAmount : Nat
  recipients : List String
  amountPerRecipient : Nat
  scheduledTime : Nat
  executed : Bool
deriving DecidableEq

/-- The client-side PaymentData record.  Amounts are kept in raw smallest
units; the source formats them with ethers.formatUnits for display only. -/
structure PaymentData where
  id : String
  creator : String
  totalAmount : Nat
  recipients : List String
  amountPerRecipient : Nat
  scheduledTime : Nat
  executed : Bool
deriving DecidableEq

def paymentDataOfIndexed (x : Nat × OnChainPayment) : PaymentData :=
  { id := toString x.1
    creator := x.2.creator
    totalAmount := x.2.totalAmount
    recipients := x.2.recipients
    amountPerRecipient := x.2.amountPerRecipient
    scheduledTime := x.2.scheduledTime
    executed := x.2.executed }

/-- The sort comparator (a, b) => b.scheduledTime - a.scheduledTime keeps a
before b exactly when b.scheduledTime ≤ a.scheduledTime. -/
def byScheduledTimeDesc (a b : PaymentData) : Bool :=
  decide (b.scheduledTime ≤ a.scheduledTime)

/-- loadPaymentData from the automation page: fetches every payment by index,
keeps those created by the connected account (case-insensitive comparison),
partitions them into not-yet-executed (scheduled) and executed (history), and
sorts each list by scheduledTime, newest first.  Per-index fetch errors skip
an entry and are not modelled. -/
def loadPaymentData (address : String) (fetched : List OnChainPayment) :
    List PaymentData × List PaymentData :=
  let mine := fetched.enum.filter fun x => lowerStr x.2.creator == lowerStr address
  let scheduled := (mine.filter fun x => !x.2.executed).map paymentDataOfIndexed
  let history := (mine.filter fun x => x.2.executed).map paymentDataOfIndexed
  (scheduled.mergeSort byScheduledTimeDesc, history.mergeSort byScheduledTimeDesc)

/-- isPaymentOverdue: Date.now() / 1000 > scheduledTime, with the current
time modelled in whole seconds. -/
def isPaymentOverdue (now : Nat) (scheduledTime : Nat) : Bool :=
  decide (now > scheduledTime)

/-- The authorization data canExecutePayment reads from the automation
contract: the payment creators, the owner, and controller membership. -/
structure AuthView where
  creatorOf : String → String
  owner : String
  controllers : String → Bool

/-- canExecutePayment from the automation page: false when disconnected or
when getSigner would throw because the wallet chain differs from the resolved
network; otherwise true for the payment creator, the contract owner, or an
authorized controller (all address comparisons case-insensitive). -/
def canExecutePayment (env : Env) (wagmiChainId : Nat) (connected : Bool)
    (address : Option String) (auth : AuthView) (paymentId : String) : Bool :=
  match address with
  | none => false
  | some addr =>
    if connected = false then false
    else if wagmiChainId ≠ (autoCurrentNetwork env wagmiChainId).chainId then false
    else if lowerStr (auth.creatorOf paymentId) == lowerStr addr then true
    else if lowerStr auth.owner == lowerStr addr then true
    else auth.controllers addr

/-- checkExecutablePayments from the automation page: of the given (scheduled,
hence not-yet-executed) payments, those that are overdue and executable by the
current account.  When disconnected the source leaves the previous set alone;
that early return is modelled as the empty set. -/
def checkExecutablePayments (env : Env) (wagmiChainId : Nat) (connected : Bool)
    (address : Option String) (auth : AuthView) (now : Nat)
    (payments : List PaymentData) : List String :=
  if connected = false ∨ address = none then []
  else
    (payments.filter fun p =>
      isPaymentOverdue now p.scheduledTime &&
        canExecutePayment env wagmiChainId connected address auth p.id).map
      PaymentData.id

/-- Result of one tick of the auto-execution poller: the payments whose
execute call was submitted, and of those, the ones whose asynchronous
confirmation succeeded. -/
structure TickResult where
  submitted : List String
  confirmed : List String
deriving DecidableEq

/-- The for-loop of autoExecuteOverduePayments.  submitOk tells whether the
awaited executeScheduledPayment submission succeeds; a throwing submission is
caught only by the batch-level catch outside the loop, so the remaining
payments of the tick are skipped.  confirmOk tells whether the fire-and-forget
confirmation succeeds; its failure is handled in the per-payment promise
handler and does not influence the loop. -/
def autoExecuteLoop (now : Nat) (executable : List String)
    (submitOk confirmOk : String → Bool) : List PaymentData → TickResult
  | [] => { submitted := [], confirmed := [] }
  | p :: rest =>
    if isPaymentOverdue now p.scheduledTime && executable.contains p.id then
      if submitOk p.id then
        let r := autoExecuteLoop now executable submitOk confirmOk rest
        { submitted := p.id :: r.submitted
          confirmed := (if confirmOk p.id then [p.id] else []) ++ r.confirmed }
      else
        { submitted := [], confirmed := [] }
    else autoExecuteLoop now executable submitOk confirmOk rest

/-- autoExecuteOverduePayments from the automation page. -/
def autoExecuteOverduePayments (now : Nat) (connected : Bool)
    (address : Option String) (executable : List String)
    (submitOk confirmOk : String → Bool)
    (scheduledPayments : List PaymentData) : TickResult :=
  if connected = false ∨ address = none ∨ scheduledPayments.isEmpty then
    { submitted := [], confirmed := [] }
  else autoExecuteLoop now executable submitOk confirmOk scheduledPayments

/- ## Concrete fixtures used by the witness theorems -/

def env₀ : Env :=
  { invoiceContractBaseSepolia := some "0x1111111111111111111111111111111111111111"
    basepayMorph := some "0x2222222222222222222222222222222222222222"
    crosschainAutomationBaseSepolia := some "0x3333333333333333333333333333333333333333"
    crosschainAutomationMorphHolesky := some "0x4444444444444444444444444444444444444444" }

def recipient₀ : String := "0x1234567890123456789012345678901234567890"

/- ## Claim theorems -/

/-- C7: for every integer chain id the registry resolves to the exact matching
configuration when the id is present in the static table and to the default
Base Sepolia configuration otherwise, as a total function that never signals
an error, and the default configuration has a non-empty token set.  Stated for
the dashboard and create-invoice registries named by the claim, with the
checkout registry's default token set included. -/
theorem registry_resolve_exact_or_default (env : Env) (cid : Nat) :
    (∀ c, (dashboardNETWORK_CONFIGS env).lookup cid = some c →
      dashboardCurrentNetwork env cid = c)
    ∧ ((dashboardNETWORK_CONFIGS env).lookup cid = none →
      dashboardCurrentNetwork env cid = dashboardBaseSepolia env)
    ∧ (∀ c, (createNETWORK_CONFIGS env).lookup cid = some c →
      createCurrentNetwork env cid = c)
    ∧ ((createNETWORK_CONFIGS env).lookup cid = none →
      createCurrentNetwork env cid = createBaseSepolia env)
    ∧ (dashboardBaseSepolia env).chainId = 84532
    ∧ (createBaseSepolia env).supportedTokens ≠ []
    ∧ (checkoutBaseSepolia env).tokens ≠ [] := by
  refine ⟨?_, ?_, ?_, ?_, rfl, by simp [createBaseSepolia], by simp [checkoutBaseSepolia]⟩
  · intro c h
    rw [dashboardCurrentNetwork, h]
    rfl
  · intro h
    rw [dashboardCurrentNetwork, h]
    rfl
  · intro c h
    rw [createCurrentNetwork, h]
    rfl
  · intro h
    rw [createCurrentNetwork, h]
    rfl

/-- Witness for C7: a chain id present in the table resolves exactly, and an
absent one resolves to the default. -/
theorem registry_resolve_exact_or_default_witness :
    dashboardCurrentNetwork env₀ 2810 = dashboardMorphHolesky env₀
    ∧ createCurrentNetwork env₀ 999999 = createBaseSepolia env₀ :=
  ⟨(registry_resolve_exact_or_default env₀ 2810).1 _ rfl,
   (registry_resolve_exact_or_default env₀ 999999).2.2.2.1 rfl⟩

/-- C6: the submitted write calls scale the user-entered amount by the
configured decimal count of the token: 18 decimals via parseEther for the
native asset (zero address), the per-address tabulated decimals otherwise,
with the Base Sepolia USDC address scaled by 6 as configured in the registry;
consequently an invoice with raw amount 1000000 in that 6-decimal token is
displayed as "1.00" by the checkout page. -/
theorem write_call_decimal_scaling :
    (∀ s, amountWei ETH_ADDRESS s = parseUnits s 18)
    ∧ (∀ s, amountWei USDC_BASE_SEPOLIA_ADDRESS s = parseUnits s 6)
    ∧ (∀ s, amountWei USDT_MORPH_HOLESKY_ADDRESS s = parseUnits s 18)
    ∧ (∀ env, ((checkoutCurrentNetwork env 84532).tokens.lookup
        USDC_BASE_SEPOLIA_ADDRESS).map TokenInfo.decimals = some 6)
    ∧ (∀ env, (autoCurrentNetwork env 84532).token.decimals = 6)
    ∧ (∀ env, checkoutDisplayAmount (checkoutCurrentNetwork env 84532)
        USDC_BASE_SEPOLIA_ADDRESS 1000000 = "1.00") := by
  refine ⟨fun s => ?_, fun s => ?_, fun s => ?_, fun env => rfl, fun env => rfl,
    fun env => ?_⟩
  · simp [amountWei, parseEther]
  · rw [amountWei, if_neg (by decide), createInvoiceTokenDecimals, if_pos rfl]
  · rw [amountWei, if_neg (by decide), createInvoiceTokenDecimals,
      if_neg (by decide), if_pos rfl]
  · have ht : (checkoutCurrentNetwork env 84532).tokens =
        (checkoutBaseSepolia env₀).tokens := rfl
    rw [checkoutDisplayAmount, ht]
    decide

/-- C9: the analytics aggregation is deterministic: identical invoice lists
and identical window specifications yield identical ordered label and value
sequences, the bucket sequence follows the window spec exactly, and a bucket
matched by no paid invoice yields value 0. -/
theorem analytics_aggregation_pure (invs : List InvoiceData) (w : WindowSpec) :
    (∀ invs2 w2, invs = invs2 → w = w2 →
      getAnalyticsData invs w = getAnalyticsData invs2 w2)
    ∧ (getAnalyticsData invs w).map AnalyticsBar.label = w.dates.map w.label
    ∧ (getAnalyticsData invs w).map AnalyticsBar.date = w.dates
    ∧ (∀ bar ∈ getAnalyticsData invs w,
        (∀ inv ∈ invs, inv.isPaid = true → 0 < inv.paidAt →
          sameBucket w.gran (dateOfUnixSeconds inv.paidAt) bar.date = false) →
        bar.value = 0) := by
  refine ⟨?_, ?_, ?_, ?_⟩
  · intro invs2 w2 h1 h2
    rw [h1, h2]
  · simp [getAnalyticsData]
  · simp [getAnalyticsData, Function.comp_def]
  · intro bar hbar hnone
    rw [getAnalyticsData, List.mem_map] at hbar
    obtain ⟨date, hdate, rfl⟩ := hbar
    simp only
    have hfil :
        ((invs.filter (fun inv => inv.isPaid && inv.paidAt > 0)).filter
          (fun inv => sameBucket w.gran (dateOfUnixSeconds inv.paidAt) date)) = [] := by
      rw [List.filter_eq_nil_iff]
      intro inv hinv
      rw [List.mem_filter] at hinv
      obtain ⟨hmem, hcond⟩ := hinv
      rw [Bool.and_eq_true] at hcond
      have hp : inv.isPaid = true := hcond.1
      have hpa : 0 < inv.paidAt := by
        have := hcond.2
        simpa using this
      have := hnone inv hmem hp hpa
      simp [this]
    rw [hfil]
    rfl

/-- Invoice paid on 1970-01-02 UTC, used by the C9 witness. -/
def invoicePaidOnJan2 : InvoiceData :=
  { merchant := "0xabc", token := USDC_BASE_SEPOLIA_ADDRESS, amount := 1000000
    dueBy := 0, isPaid := true, memo := "", logoURI := "", description := ""
    paidAt := 86400 }

/-- One-bucket day window on 1970-01-03 UTC, used by the C9 witness. -/
def windowJan3 : WindowSpec :=
  { dates := [{ year := 1970, month := 1, day := 3 }], gran := .day
    label := fun _ => "Sat" }

/-- The bucket produced for that window. -/
def barJan3 : AnalyticsBar :=
  { label := "Sat", value := 0, date := { year := 1970, month := 1, day := 3 } }

/-- Witness for C9: a window with one bucket and an invoice paid on a
different day yields a zero-valued bucket. -/
theorem analytics_aggregation_pure_witness :
    ∀ bar ∈ getAnalyticsData [invoicePaidOnJan2] windowJan3, bar.value = 0 := by
  intro bar hbar
  have hlist : getAnalyticsData [invoicePaidOnJan2] windowJan3 = [barJan3] := by decide
  rw [hlist, List.mem_singleton] at hbar
  subst hbar
  exact (analytics_aggregation_pure [invoicePaidOnJan2] windowJan3).2.2.2 barJan3
    (by rw [hlist]; exact List.mem_singleton_self _) (by decide)

/-- C3: when the existing allowance already meets the required amount, the
allowance sequencer submits no approval transaction (its trace is the single
allowance read, and repeated calls under the unchanged state behave the same),
so the automation payment flow and the checkout payment flow each submit
exactly one on-chain write, the payment itself. -/
theorem sufficient_allowance_single_write
    (env : Env) (wagmiChainId : Nat) (acct amount : String)
    (recipients : List String) (ch : AutoChain) (n : Nat)
    (spender : String)
    (providerChainId wagmiChainId2 : Nat) (inv : InvoiceData)
    (invoiceHash ca : String) (erc : Erc20View)
    (hpos : jsNumberPos amount = true)
    (hvr : recipients.filter validRecipientPred ≠ [])
    (hir : recipients.filter invalidRecipientPred = [])
    (hca : (autoCurrentNetwork env wagmiChainId).contractAddress ≠ "")
    (hchain : wagmiChainId = (autoCurrentNetwork env wagmiChainId).chainId)
    (hparse : parseUnits amount (autoCurrentNetwork env wagmiChainId).token.decimals = some n)
    (hbal : n ≤ ch.balance)
    (hallow : n ≤ ch.allw.allowance)
    (htok : inv.token ≠ ETH_ADDRESS)
    (hprov : providerChainId = (checkoutCurrentNetwork env wagmiChainId2).chainId)
    (hca2 : (checkoutCurrentNetwork env wagmiChainId2).contractAddress = some ca)
    (hcode : erc.codeExists = true)
    (hallow2 : inv.amount ≤ erc.allowance) :
    submitPayment env wagmiChainId true (some acct) amount recipients false none ch
      = ([.executePaymentNowWithToken (autoCurrentNetwork env wagmiChainId).token.address n
            (recipients.filter validRecipientPred)], .success)
    ∧ approveToken spender n ch.allw = { steps := [.readAllowance], ok := true }
    ∧ approvalWrites (approveToken spender n ch.allw) = []
    ∧ (handlePay env providerChainId wagmiChainId2 (some acct) true (some inv)
        invoiceHash erc).writes = [.payInvoice ca invoiceHash 0] := by
  have hat : approveToken (autoCurrentNetwork env wagmiChainId).contractAddress n ch.allw
      = { steps := [.readAllowance], ok := true } := by
    rw [approveToken, if_neg (Nat.not_lt.mpr hallow)]
  have hat2 : approveToken spender n ch.allw = { steps := [.readAllowance], ok := true } := by
    rw [approveToken, if_neg (Nat.not_lt.mpr hallow)]
  refine ⟨?_, hat2, by rw [hat2]; rfl, ?_⟩
  · rw [submitPayment]
    rw [if_neg (by simp), if_neg (by simp [hpos]), if_neg hvr, if_neg (by simp [hir]),
      if_neg hca, if_neg (by simp [← hchain]), hparse]
    simp only [hat]
    rw [if_neg (Nat.not_lt.mpr hbal)]
    simp [approvalWrites]
  · rw [handlePay.eq_def]
    simp only [hca2]
    rw [if_neg (by simp), if_pos htok, if_pos hprov]
    simp only
    rw [if_neg (by simp [hcode]), if_neg (Nat.not_lt.mpr hallow2)]
    simp

/-- Witness for C3 at a concrete state with allowance already sufficient. -/
theorem sufficient_allowance_single_write_witness :
    submitPayment env₀ 84532 true (some "0xme") "5" [recipient₀] false none
      { balance := 10000000, allw := { allowance := 5000000, postApprovalAllowance := 0 } }
      = ([.executePaymentNowWithToken USDC_BASE_SEPOLIA_ADDRESS 5000000 [recipient₀]],
         .success)
    ∧ approveToken "0x3333333333333333333333333333333333333333" 5000000
        { allowance := 5000000, postApprovalAllowance := 0 }
      = { steps := [.readAllowance], ok := true }
    ∧ approvalWrites (approveToken "0x3333333333333333333333333333333333333333" 5000000
        { allowance := 5000000, postApprovalAllowance := 0 }) = []
    ∧ (handlePay env₀ 84532 84532 (some "0xme") true
        (some { merchant := "0xabc", token := USDC_BASE_SEPOLIA_ADDRESS, amount := 5000000
                dueBy := 0, isPaid := false, memo := "", logoURI := "", description := ""
                paidAt := 0 })
        "0xhash" { codeExists := true, allowance := 5000000, postApprovalAllowance := 0 }).writes
      = [.payInvoice "0x1111111111111111111111111111111111111111" "0xhash" 0] := by
  have h := sufficient_allowance_single_write env₀ 84532 "0xme" "5" [recipient₀]
    { balance := 10000000, allw := { allowance := 5000000, postApprovalAllowance := 0 } }
    5000000 "0x3333333333333333333333333333333333333333" 84532 84532
    { merchant := "0xabc", token := USDC_BASE_SEPOLIA_ADDRESS, amount := 5000000
      dueBy := 0, isPaid := false, memo := "", logoURI := "", description := ""
      paidAt := 0 }
    "0xhash" "0x1111111111111111111111111111111111111111"
    { codeExists := true, allowance := 5000000, postApprovalAllowance := 0 }
    (by decide) (by decide) (by decide) (by decide) (by decide) (by decide)
    (by decide) (by decide) (by decide) (by decide) (by decide) (by decide)
    (by decide)
  exact h

/-- The registry only ever resolves to chain id 84532 or 2810. -/
theorem checkoutCurrentNetwork_chainId (env : Env) (cid : Nat) :
    (checkoutCurrentNetwork env cid).chainId = 84532
    ∨ (checkoutCurrentNetwork env cid).chainId = 2810 := by
  rw [checkoutCurrentNetwork, checkoutNETWORK_CONFIGS]
  simp only [List.lookup]
  split
  · left; rfl
  · split
    · right; rfl
    · left; rfl

/-- Both resolvable networks have a registered direct RPC endpoint. -/
theorem directRpcUrl_checkout_isSome (env : Env) (cid : Nat) :
    (directRpcUrl (checkoutCurrentNetwork env cid).chainId).isSome := by
  rcases checkoutCurrentNetwork_chainId env cid with h | h <;> rw [h] <;> rfl

/-- C1 (amended): in the payment flow, when the injected provider's reported
chain id differs from the target network's chain id, handlePay proceeds with
the direct RPC fallback provider exactly when the wallet-library-reported
chain id equals the target chain id and a fallback endpoint is registered for
it (which holds for every resolvable target), and in every other case fails
with the network-mismatch condition submitting no transaction; the read-only
invoice lookup, by contrast, switches to the registered fallback endpoint
whenever the injected provider disagrees with the target, regardless of the
wallet-reported chain id, and never fails with a mismatch condition. -/
theorem provider_resolver_amended (env : Env) (providerChainId wagmiChainId : Nat) :
    (∀ acct inv invoiceHash ca erc,
      inv.token ≠ ETH_ADDRESS →
      (checkoutCurrentNetwork env wagmiChainId).contractAddress = some ca →
      providerChainId ≠ (checkoutCurrentNetwork env wagmiChainId).chainId →
      ((usedFallback (handlePay env providerChainId wagmiChainId (some acct) true
          (some inv) invoiceHash erc) = true ↔
        (wagmiChainId = (checkoutCurrentNetwork env wagmiChainId).chainId ∧
          (directRpcUrl (checkoutCurrentNetwork env wagmiChainId).chainId).isSome))
      ∧ (wagmiChainId ≠ (checkoutCurrentNetwork env wagmiChainId).chainId →
          handlePay env providerChainId wagmiChainId (some acct) true (some inv)
            invoiceHash erc
            = { providerUsed := none, writes := [], outcome := .mismatchError })))
    ∧ (∀ chains h,
        providerChainId ≠ (checkoutCurrentNetwork env wagmiChainId).chainId →
        ∃ url, directRpcUrl (checkoutCurrentNetwork env wagmiChainId).chainId = some url
          ∧ (fetchInvoice env providerChainId wagmiChainId chains (some h)).providerUsed
              = some (.fallbackRpc url)) := by
  constructor
  · intro acct inv invoiceHash ca erc htok hca hpc
    rw [handlePay.eq_def]
    simp only [hca]
    rw [if_neg (by simp), if_pos htok, if_neg hpc]
    by_cases hw : wagmiChainId = (checkoutCurrentNetwork env wagmiChainId).chainId
    · rw [if_pos hw]
      obtain ⟨url, hurl⟩ := Option.isSome_iff_exists.mp
        (directRpcUrl_checkout_isSome env wagmiChainId)
      rw [hurl]
      simp only
      constructor
      · constructor
        · intro _
          exact ⟨hw, rfl⟩
        · intro _
          by_cases hcode : erc.codeExists = false
          · rw [if_pos hcode]; rfl
          · rw [if_neg hcode]; rfl
      · intro hw2
        exact absurd hw hw2
    · rw [if_neg hw]
      simp only
      constructor
      · simp [usedFallback, hw]
      · intro _
        trivial
  · intro chains h hpc
    obtain ⟨url, hurl⟩ := Option.isSome_iff_exists.mp
      (directRpcUrl_checkout_isSome env wagmiChainId)
    refine ⟨url, hurl, ?_⟩
    rw [fetchInvoice.eq_def]
    simp only [if_pos hpc, hurl]
    cases hct : (checkoutCurrentNetwork env wagmiChainId).contractAddress with
    | none => rfl
    | some c =>
      simp only
      split
      · split <;> rfl
      · rfl

/-- The invoice record returned by the oracle used in the C1 counterexample. -/
def chainsInv₀ : Nat → String → InvoiceData := fun _ _ =>
  { merchant := "0xmerchant", token := USDC_BASE_SEPOLIA_ADDRESS, amount := 1000000
    dueBy := 0, isPaid := false, memo := "", logoURI := "", description := ""
    paidAt := 0 }

/-- Counterexample to C1 as stated: with both the injected provider and the
wallet library reporting chain 1 (different from the resolved target chain
84532), the invoice lookup does not fail with a network-mismatch condition;
it proceeds on the direct RPC fallback provider and reports the lookup
result. -/
theorem provider_resolver_counterexample :
    (1 : Nat) ≠ (checkoutCurrentNetwork env₀ 1).chainId
    ∧ (fetchInvoice env₀ 1 1 chainsInv₀ (some "0xhash")).providerUsed
        = some (.fallbackRpc "https://sepolia.base.org")
    ∧ (fetchInvoice env₀ 1 1 chainsInv₀ (some "0xhash")).outcome
        = .success (chainsInv₀ 84532 "0xhash") := by
  refine ⟨by decide, by decide, by decide⟩

/-- Witness for the amended C1: a provider desync with the wallet on the
target chain uses the fallback RPC, while a wallet on the wrong chain gets
the mismatch error with no writes. -/
theorem provider_resolver_amended_witness :
    (usedFallback (handlePay env₀ 2810 84532 (some "0xme") true
      (some (chainsInv₀ 84532 "0xhash")) "0xhash"
      { codeExists := true, allowance := 0, postApprovalAllowance := 0 }) = true ↔
      ((84532 : Nat) = (checkoutCurrentNetwork env₀ 84532).chainId ∧
        (directRpcUrl (checkoutCurrentNetwork env₀ 84532).chainId).isSome))
    ∧ ((84532 : Nat) ≠ (checkoutCurrentNetwork env₀ 84532).chainId →
        handlePay env₀ 2810 84532 (some "0xme") true (some (chainsInv₀ 84532 "0xhash"))
          "0xhash" { codeExists := true, allowance := 0, postApprovalAllowance := 0 }
          = { providerUsed := none, writes := [], outcome := .mismatchError }) :=
  (provider_resolver_amended env₀ 2810 84532).1 "0xme" (chainsInv₀ 84532 "0xhash")
    "0xhash" "0x1111111111111111111111111111111111111111"
    { codeExists := true, allowance := 0, postApprovalAllowance := 0 }
    (by decide) (by decide) (by decide)

/-- An approveToken trace never contains a value-moving write. -/
theorem filterMap_approval_no_value (l : List ApproveStep) :
    ((l.filterMap fun s => match s with
      | .submitApprove sp amt => some (AutoWrite.approve sp amt)
      | _ => none).filter valueMovingWrite) = [] := by
  induction l with
  | nil => rfl
  | cons s rest ih => cases s <;> simp [valueMovingWrite, ih]

theorem approvalWrites_filter_valueMoving (r : ApproveResult) :
    (approvalWrites r).filter valueMovingWrite = [] :=
  filterMap_approval_no_value r.steps

/-- The USDC invoice used by the C2 counterexample. -/
def invUSDC₀ : InvoiceData :=
  { merchant := "0xabc", token := USDC_BASE_SEPOLIA_ADDRESS, amount := 5000000
    dueBy := 0, isPaid := false, memo := "", logoURI := "", description := ""
    paidAt := 0 }

/-- Counterexample to C2 as stated: in the checkout payment flow with
allowance 0 below the required 5000000, and with a post-approval allowance
read that would still return 0, the flow submits the approval and then
immediately submits the value-moving payInvoice call with a success outcome:
it performs no confirmation wait, no allowance re-read, and raises no
approval-failure before the value-moving call. -/
theorem allowance_sequencer_counterexample :
    (0 : Nat) < invUSDC₀.amount
    ∧ (Erc20View.postApprovalAllowance
        { codeExists := true, allowance := 0, postApprovalAllowance := 0 }) < invUSDC₀.amount
    ∧ (handlePay env₀ 84532 84532 (some "0xme") true (some invUSDC₀) "0xhash"
        { codeExists := true, allowance := 0, postApprovalAllowance := 0 }).outcome
      = .success
    ∧ (handlePay env₀ 84532 84532 (some "0xme") true (some invUSDC₀) "0xhash"
        { codeExists := true, allowance := 0, postApprovalAllowance := 0 }).writes
      = [.approve USDC_BASE_SEPOLIA_ADDRESS "0x1111111111111111111111111111111111111111"
          5000000,
         .payInvoice "0x1111111111111111111111111111111111111111" "0xhash" 0] := by
  refine ⟨by decide, by decide, by decide, by decide⟩

/-- C2 (amended): in the payment-automation flow, whenever the current
allowance for (account, spender) is below the required amount, approveToken
submits an approval for exactly the required amount, awaits its confirmation,
re-reads the allowance and fails precisely when the post-approval allowance
is still below the required amount; and whenever submitPayment ends in the
approval-failure outcome, its submitted writes contain no value-moving call.
The checkout payment flow, by contrast, submits its approval without awaiting
confirmation or re-reading the allowance (see the counterexample). -/
theorem allowance_sequencer_amended (spender : String) (amt : Nat)
    (st : AllowanceState) (hlt : st.allowance < amt) :
    ((approveToken spender amt st).steps
      = [.readAllowance, .submitApprove spender amt, .waitConfirmation, .readAllowance]
    ∧ ((approveToken spender amt st).ok = false ↔ st.postApprovalAllowance < amt))
    ∧ (∀ env wagmiChainId connected address amount recipients scheduled scheduledDate ch,
        (submitPayment env wagmiChainId connected address amount recipients scheduled
          scheduledDate ch).2 = .approvalFailed →
        ((submitPayment env wagmiChainId connected address amount recipients scheduled
          scheduledDate ch).1.filter valueMovingWrite) = []) := by
  constructor
  · rw [approveToken, if_pos hlt]
    refine ⟨rfl, ?_⟩
    simp [Nat.not_le]
  · intro env wagmiChainId connected address amount recipients scheduled scheduledDate ch
    simp only [submitPayment.eq_def]
    repeat' split
    all_goals intro hfail
    all_goals first
      | exact approvalWrites_filter_valueMoving _
      | exact absurd hfail (by simp)

/-- Witness for the amended C2: allowance 0 against required amount 5 gives
the exact four-step trace and a failure verdict matching the still-short
post-approval allowance. -/
theorem allowance_sequencer_amended_witness :
    (approveToken "0x3333333333333333333333333333333333333333" 5
      { allowance := 0, postApprovalAllowance := 0 }).steps
      = [.readAllowance,
         .submitApprove "0x3333333333333333333333333333333333333333" 5,
         .waitConfirmation, .readAllowance]
    ∧ ((approveToken "0x3333333333333333333333333333333333333333" 5
        { allowance := 0, postApprovalAllowance := 0 }).ok = false ↔ (0 : Nat) < 5) :=
  (allowance_sequencer_amended "0x3333333333333333333333333333333333333333" 5
    { allowance := 0, postApprovalAllowance := 0 } (by decide)).1

/-- The submissions of a tick do not depend on the confirmation oracle. -/
theorem autoExecuteLoop_confirm_indep (now : Nat) (executable : List String)
    (submitOk c1 c2 : String → Bool) (ps : List PaymentData) :
    (autoExecuteLoop now executable submitOk c1 ps).submitted
      = (autoExecuteLoop now executable submitOk c2 ps).submitted := by
  induction ps with
  | nil => rfl
  | cons p rest ih =>
    rw [autoExecuteLoop, autoExecuteLoop]
    split
    · split
      · simpa using ih
      · rfl
    · exact ih

/-- When no submission fails, the tick submits exactly the overdue executable
payments, in order. -/
theorem autoExecuteLoop_all_ok (now : Nat) (executable : List String)
    (submitOk confirmOk : String → Bool) (ps : List PaymentData)
    (hok : ∀ p ∈ ps, isPaymentOverdue now p.scheduledTime = true →
      executable.contains p.id = true → submitOk p.id = true) :
    (autoExecuteLoop now executable submitOk confirmOk ps).submitted
      = (ps.filter fun p =>
          isPaymentOverdue now p.scheduledTime && executable.contains p.id).map
        PaymentData.id := by
  induction ps with
  | nil => rfl
  | cons p rest ih =>
    rw [autoExecuteLoop]
    have ih2 := ih fun q hq => hok q (List.mem_cons_of_mem p hq)
    by_cases hcond : (isPaymentOverdue now p.scheduledTime
        && executable.contains p.id) = true
    · have hcond2 := hcond
      rw [if_pos hcond]
      rw [Bool.and_eq_true] at hcond2
      rw [if_pos (hok p (List.mem_cons_self p rest) hcond2.1 hcond2.2)]
      simp only [List.filter_cons]
      rw [if_pos hcond]
      simp [ih2]
    · rw [if_neg hcond]
      simp only [List.filter_cons]
      rw [if_neg hcond]
      exact ih2

/-- Overdue payments used by the C5 counterexample and witness. -/
def payment₁ : PaymentData :=
  { id := "1", creator := "0xme", totalAmount := 10, recipients := [recipient₀]
    amountPerRecipient := 5, scheduledTime := 10, executed := false }

def payment₂ : PaymentData :=
  { id := "2", creator := "0xme", totalAmount := 10, recipients := [recipient₀]
    amountPerRecipient := 5, scheduledTime := 10, executed := false }

/-- Counterexample to C5 as stated: payment 2 is overdue, in the executable
set, and its own submission would succeed, yet after the submission of
payment 1 throws, the tick submits nothing at all: the batch-level catch
aborts the remaining scan. -/
theorem auto_execute_tick_counterexample :
    isPaymentOverdue 11 payment₂.scheduledTime = true
    ∧ (["1", "2"] : List String).contains payment₂.id = true
    ∧ (fun i => i != "1") payment₂.id = true
    ∧ (autoExecuteOverduePayments 11 true (some "0xme") ["1", "2"]
        (fun i => i != "1") (fun _ => true) [payment₁, payment₂]).submitted = [] := by
  refine ⟨by decide, by decide, by decide, by decide⟩

/-- C5 (amended): within one tick of the auto-execution poller, a failure of
the asynchronous confirmation of one payment does not influence which other
payments are submitted, and when no submission throws, every overdue payment
in the executable set is submitted; a throwing submission, however, is caught
by the batch-level handler and aborts the remaining scan of that tick (see
the counterexample). -/
theorem auto_execute_tick_amended (now : Nat) (addr : String)
    (executable : List String) (submitOk c1 c2 : String → Bool)
    (ps : List PaymentData)
    (hok : ∀ p ∈ ps, isPaymentOverdue now p.scheduledTime = true →
      executable.contains p.id = true → submitOk p.id = true) :
    (autoExecuteOverduePayments now true (some addr) executable submitOk c1 ps).submitted
      = (autoExecuteOverduePayments now true (some addr) executable submitOk c2
          ps).submitted
    ∧ (autoExecuteOverduePayments now true (some addr) executable submitOk c1
        ps).submitted
      = (ps.filter fun p =>
          isPaymentOverdue now p.scheduledTime && executable.contains p.id).map
        PaymentData.id := by
  cases ps with
  | nil => exact ⟨rfl, rfl⟩
  | cons a l =>
    rw [autoExecuteOverduePayments, autoExecuteOverduePayments]
    rw [if_neg (by simp), if_neg (by simp)]
    exact ⟨autoExecuteLoop_confirm_indep now executable submitOk c1 c2 (a :: l),
      autoExecuteLoop_all_ok now executable submitOk c1 (a :: l) hok⟩

/-- Witness for the amended C5: with both payments overdue, executable and
submittable, the tick submits both regardless of the confirmation oracle. -/
theorem auto_execute_tick_amended_witness :
    (autoExecuteOverduePayments 11 true (some "0xme") ["1", "2"] (fun _ => true)
      (fun _ => true) [payment₁, payment₂]).submitted
      = (autoExecuteOverduePayments 11 true (some "0xme") ["1", "2"] (fun _ => true)
          (fun _ => false) [payment₁, payment₂]).submitted
    ∧ (autoExecuteOverduePayments 11 true (some "0xme") ["1", "2"] (fun _ => true)
        (fun _ => true) [payment₁, payment₂]).submitted
      = ([payment₁, payment₂].filter fun p =>
          isPaymentOverdue 11 p.scheduledTime && (["1", "2"] : List String).contains
            p.id).map PaymentData.id :=
  auto_execute_tick_amended 11 "0xme" ["1", "2"] (fun _ => true) (fun _ => true)
    (fun _ => false) [payment₁, payment₂] (by decide)

/-- C8: a not-yet-executed payment whose scheduled time is in the past is
placed in the executable set when the connected account (on the resolved
network) equals its creator, and is not placed there when the account is
unrelated: not the creator, not the contract owner, and not an authorized
controller (all compared case-insensitively, as in the source). -/
theorem executable_set_membership (env : Env) (wagmiChainId : Nat) (addr : String)
    (auth : AuthView) (now : Nat) (payments : List PaymentData) (p : PaymentData)
    (hmem : p ∈ payments)
    (hchain : wagmiChainId = (autoCurrentNetwork env wagmiChainId).chainId)
    (hover : now > p.scheduledTime) :
    (auth.creatorOf p.id = addr →
      p.id ∈ checkExecutablePayments env wagmiChainId true (some addr) auth now payments)
    ∧ (lowerStr (auth.creatorOf p.id) ≠ lowerStr addr →
      lowerStr auth.owner ≠ lowerStr addr →
      auth.controllers addr = false →
      p.id ∉ checkExecutablePayments env wagmiChainId true (some addr) auth now
        payments) := by
  constructor
  · intro hcr
    rw [checkExecutablePayments, if_neg (by simp)]
    refine List.mem_map.mpr ⟨p, List.mem_filter.mpr ⟨hmem, ?_⟩, rfl⟩
    rw [Bool.and_eq_true]
    refine ⟨by simpa [isPaymentOverdue] using hover, ?_⟩
    rw [canExecutePayment]
    rw [if_neg (by simp), if_neg (not_not_intro hchain)]
    rw [if_pos (by rw [hcr]; exact beq_self_eq_true _)]
  · intro h1 h2 h3 hin
    rw [checkExecutablePayments, if_neg (by simp)] at hin
    obtain ⟨q, hq, hqid⟩ := List.mem_map.mp hin
    rw [List.mem_filter] at hq
    have hcan : canExecutePayment env wagmiChainId true (some addr) auth q.id = false := by
      rw [hqid, canExecutePayment]
      rw [if_neg (by simp), if_neg (not_not_intro hchain)]
      rw [if_neg (by simp [h1]), if_neg (by simp [h2])]
      exact h3
    have hq2 := hq.2
    rw [Bool.and_eq_true, hcan] at hq2
    exact absurd hq2.2 (by simp)

/-- Authorization view used by the C8 witness: each payment was created by
0xme, the owner is a third address, and nobody is a controller. -/
def auth₀ : AuthView :=
  { creatorOf := fun _ => "0xme", owner := "0xbeef", controllers := fun _ => false }

/-- Witness for C8: the creator account sees the overdue payment in the
executable set, an unrelated account does not. -/
theorem executable_set_membership_witness :
    "1" ∈ checkExecutablePayments env₀ 84532 true (some "0xme") auth₀ 11 [payment₁]
    ∧ "1" ∉ checkExecutablePayments env₀ 84532 true (some "0xdead") auth₀ 11
        [payment₁] :=
  ⟨(executable_set_membership env₀ 84532 "0xme" auth₀ 11 [payment₁] payment₁
      (by decide) (by decide) (by decide)).1 (by decide),
   (executable_set_membership env₀ 84532 "0xdead" auth₀ 11 [payment₁] payment₁
      (by decide) (by decide) (by decide)).2 (by decide) (by decide) (by decide)⟩

/-- The sorted output of the payment loader is descending in scheduledTime. -/
theorem pairwise_byScheduledTimeDesc (l : List PaymentData) :
    (l.mergeSort byScheduledTimeDesc).Pairwise
      (fun a b => b.scheduledTime ≤ a.scheduledTime) := by
  have htrans : ∀ a b c : PaymentData, byScheduledTimeDesc a b = true →
      byScheduledTimeDesc b c = true → byScheduledTimeDesc a c = true := by
    intro a b c hab hbc
    simp only [byScheduledTimeDesc, decide_eq_true_eq] at *
    omega
  have htotal : ∀ a b : PaymentData,
      (byScheduledTimeDesc a b || byScheduledTimeDesc b a) = true := by
    intro a b
    simp only [byScheduledTimeDesc, Bool.or_eq_true, decide_eq_true_eq]
    omega
  have h := @List.sorted_mergeSort PaymentData byScheduledTimeDesc htrans htotal l
  exact h.imp fun hab => by simpa [byScheduledTimeDesc] using hab

/-- C10: after loading payment data for a connected account, every record in
the scheduled and history lists has the account as creator (case-insensitive),
the scheduled list is exactly (a permutation of) the loaded payments of that
account with executed = false and the history list exactly those with
executed = true, and each list is sorted by scheduledTime in descending
order. -/
theorem load_payment_data_partition_sorted (addr : String)
    (fetched : List OnChainPayment) :
    (∀ p ∈ (loadPaymentData addr fetched).1,
      lowerStr p.creator = lowerStr addr ∧ p.executed = false)
    ∧ (∀ p ∈ (loadPaymentData addr fetched).2,
      lowerStr p.creator = lowerStr addr ∧ p.executed = true)
    ∧ (loadPaymentData addr fetched).1.Perm
        (((fetched.enum.filter fun x => lowerStr x.2.creator == lowerStr addr).filter
          fun x => !x.2.executed).map paymentDataOfIndexed)
    ∧ (loadPaymentData addr fetched).2.Perm
        (((fetched.enum.filter fun x => lowerStr x.2.creator == lowerStr addr).filter
          fun x => x.2.executed).map paymentDataOfIndexed)
    ∧ (loadPaymentData addr fetched).1.Pairwise
        (fun a b => b.scheduledTime ≤ a.scheduledTime)
    ∧ (loadPaymentData addr fetched).2.Pairwise
        (fun a b => b.scheduledTime ≤ a.scheduledTime) := by
  have hperm1 : (loadPaymentData addr fetched).1.Perm
      (((fetched.enum.filter fun x => lowerStr x.2.creator == lowerStr addr).filter
        fun x => !x.2.executed).map paymentDataOfIndexed) :=
    List.mergeSort_perm _ _
  have hperm2 : (loadPaymentData addr fetched).2.Perm
      (((fetched.enum.filter fun x => lowerStr x.2.creator == lowerStr addr).filter
        fun x => x.2.executed).map paymentDataOfIndexed) :=
    List.mergeSort_perm _ _
  refine ⟨?_, ?_, hperm1, hperm2, ?_, ?_⟩
  · intro p hp
    obtain ⟨x, hx, rfl⟩ := List.mem_map.mp (hperm1.mem_iff.mp hp)
    rw [List.mem_filter] at hx
    obtain ⟨hx1, hx2⟩ := hx
    rw [List.mem_filter] at hx1
    exact ⟨eq_of_beq hx1.2, by simpa using hx2⟩
  · intro p hp
    obtain ⟨x, hx, rfl⟩ := List.mem_map.mp (hperm2.mem_iff.mp hp)
    rw [List.mem_filter] at hx
    obtain ⟨hx1, hx2⟩ := hx
    rw [List.mem_filter] at hx1
    exact ⟨eq_of_beq hx1.2, hx2⟩
  · exact pairwise_byScheduledTimeDesc _
  · exact pairwise_byScheduledTimeDesc _

/-- On-chain payments used by the C10 witness. -/
def onchainA : OnChainPayment :=
  { creator := "0xME", totalAmount := 5, recipients := [recipient₀]
    amountPerRecipient := 5, scheduledTime := 100, executed := false }

def onchainB : OnChainPayment :=
  { creator := "0xme", totalAmount := 7, recipients := [recipient₀]
    amountPerRecipient := 7, scheduledTime := 200, executed := false }

def onchainC : OnChainPayment :=
  { creator := "0xother1234", totalAmount := 9, recipients := [recipient₀]
    amountPerRecipient := 9, scheduledTime := 300, executed := true }

/-- Witness for C10 at a concrete account and payment list. -/
theorem load_payment_data_partition_sorted_witness :
    (loadPaymentData "0xMe" [onchainA, onchainB, onchainC]).1.Pairwise
      (fun a b => b.scheduledTime ≤ a.scheduledTime)
    ∧ (loadPaymentData "0xMe" [onchainA, onchainB, onchainC]).1.Perm
        ((([onchainA, onchainB, onchainC].enum.filter
            fun x => lowerStr x.2.creator == lowerStr "0xMe").filter
          fun x => !x.2.executed).map paymentDataOfIndexed) :=
  ⟨(load_payment_data_partition_sorted "0xMe" [onchainA, onchainB, onchainC]).2.2.2.2.1,
   (load_payment_data_partition_sorted "0xMe" [onchainA, onchainB, onchainC]).2.2.1⟩

/-- The secondary lookup returns none exactly when the invoice is absent
(zero merchant) on every listed network that has a configured contract. -/
theorem findInvoiceOnOthers_eq_none (chains : Nat → String → InvoiceData)
    (h : String) (l : List CheckoutNetworkConfig) :
    findInvoiceOnOthers chains h l = none
      ↔ ∀ n ∈ l, n.contractAddress.isSome →
          (chains n.chainId h).merchant = ZeroAddress := by
  induction l with
  | nil => simp [findInvoiceOnOthers]
  | cons net rest ih =>
    cases hct : net.contractAddress with
    | none => simp [findInvoiceOnOthers, hct, ih]
    | some c =>
      by_cases hm : (chains net.chainId h).merchant = ZeroAddress
      · simp [findInvoiceOnOthers, hct, hm, ih]
      · simp [findInvoiceOnOthers, hct, hm]

/-- A successful secondary lookup names a listed network with a configured
contract on which the invoice has a non-zero merchant. -/
theorem findInvoiceOnOthers_eq_some (chains : Nat → String → InvoiceData)
    (h : String) (l : List CheckoutNetworkConfig) (nm : String)
    (hfind : findInvoiceOnOthers chains h l = some nm) :
    ∃ n ∈ l, n.contractAddress.isSome
      ∧ (chains n.chainId h).merchant ≠ ZeroAddress ∧ nm = n.name := by
  induction l with
  | nil => simp [findInvoiceOnOthers] at hfind
  | cons net rest ih =>
    cases hct : net.contractAddress with
    | none =>
      rw [findInvoiceOnOthers, hct] at hfind
      obtain ⟨n, hn, hrest⟩ := ih hfind
      exact ⟨n, List.mem_cons_of_mem net hn, hrest⟩
    | some c =>
      rw [findInvoiceOnOthers, hct] at hfind
      by_cases hm : (chains net.chainId h).merchant = ZeroAddress
      · rw [if_neg (by simpa using hm)] at hfind
        obtain ⟨n, hn, hrest⟩ := ih hfind
        exact ⟨n, List.mem_cons_of_mem net hn, hrest⟩
      · rw [if_pos hm] at hfind
        exact ⟨net, List.mem_cons_self net rest, by rw [hct]; rfl, hm,
          (Option.some_inj.mp hfind).symm⟩

/-- When the active-network read returns a zero merchant, the lookup outcome
is determined by the secondary scan over the other registered networks. -/
theorem fetchInvoice_outcome_of_zero (env : Env) (providerChainId wagmiChainId : Nat)
    (chains : Nat → String → InvoiceData) (h ca : String)
    (hca : (checkoutCurrentNetwork env wagmiChainId).contractAddress = some ca)
    (hz : (chains (checkoutCurrentNetwork env wagmiChainId).chainId h).merchant
      = ZeroAddress) :
    (fetchInvoice env providerChainId wagmiChainId chains (some h)).outcome
      = match findInvoiceOnOthers chains h
          (((checkoutNETWORK_CONFIGS env).map Prod.snd).filter
            (fun n => n.chainId != (checkoutCurrentNetwork env wagmiChainId).chainId))
          with
        | some nm => .foundOnOther nm
        | none => .notFoundGeneric := by
  rw [fetchInvoice.eq_def]
  by_cases hpc : providerChainId ≠ (checkoutCurrentNetwork env wagmiChainId).chainId
  · obtain ⟨url, hurl⟩ := Option.isSome_iff_exists.mp
      (directRpcUrl_checkout_isSome env wagmiChainId)
    simp only [if_pos hpc, hurl, hca]
    rw [if_pos hz]
    cases hfind : findInvoiceOnOthers chains h
        (((checkoutNETWORK_CONFIGS env).map Prod.snd).filter
          (fun n => n.chainId != (checkoutCurrentNetwork env wagmiChainId).chainId)) <;>
      rfl
  · have hpc2 := not_ne_iff.mp hpc
    simp only [if_neg hpc, hca, hpc2]
    have hrefl : ¬((checkoutCurrentNetwork env wagmiChainId).chainId
        ≠ (checkoutCurrentNetwork env wagmiChainId).chainId) := by simp
    simp only [if_neg hrefl]
    rw [if_pos hz]
    cases hfind : findInvoiceOnOthers chains h
        (((checkoutNETWORK_CONFIGS env).map Prod.snd).filter
          (fun n => n.chainId != (checkoutCurrentNetwork env wagmiChainId).chainId)) <;>
      rfl

/-- C4: when the invoice record on the active network has an all-zero
merchant address, fetchInvoice reports the generic not-found outcome exactly
when the invoice is also absent on every other registered network with a
configured contract address (so a secondary lookup across all of them
precedes any NotFound report), and when the invoice exists on another
registered network the outcome names that network. -/
theorem invoice_cross_network_lookup (env : Env) (providerChainId wagmiChainId : Nat)
    (chains : Nat → String → InvoiceData) (h ca : String)
    (hca : (checkoutCurrentNetwork env wagmiChainId).contractAddress = some ca)
    (hz : (chains (checkoutCurrentNetwork env wagmiChainId).chainId h).merchant
      = ZeroAddress) :
    ((fetchInvoice env providerChainId wagmiChainId chains (some h)).outcome
        = .notFoundGeneric
      ↔ ∀ n ∈ ((checkoutNETWORK_CONFIGS env).map Prod.snd).filter
          (fun n => n.chainId != (checkoutCurrentNetwork env wagmiChainId).chainId),
          n.contractAddress.isSome → (chains n.chainId h).merchant = ZeroAddress)
    ∧ ((∃ n ∈ ((checkoutNETWORK_CONFIGS env).map Prod.snd).filter
          (fun n => n.chainId != (checkoutCurrentNetwork env wagmiChainId).chainId),
          n.contractAddress.isSome ∧ (chains n.chainId h).merchant ≠ ZeroAddress) →
        ∃ n ∈ ((checkoutNETWORK_CONFIGS env).map Prod.snd).filter
          (fun n => n.chainId != (checkoutCurrentNetwork env wagmiChainId).chainId),
          n.contractAddress.isSome ∧ (chains n.chainId h).merchant ≠ ZeroAddress
          ∧ (fetchInvoice env providerChainId wagmiChainId chains (some h)).outcome
              = .foundOnOther n.name) := by
  have hout := fetchInvoice_outcome_of_zero env providerChainId wagmiChainId chains h ca
    hca hz
  constructor
  · rw [hout]
    cases hfind : findInvoiceOnOthers chains h
        (((checkoutNETWORK_CONFIGS env).map Prod.snd).filter
          (fun n => n.chainId != (checkoutCurrentNetwork env wagmiChainId).chainId)) with
    | none =>
      simp only
      rw [← findInvoiceOnOthers_eq_none chains h]
      simp [hfind]
    | some nm =>
      simp only
      constructor
      · intro hcontra
        exact absurd hcontra (by simp)
      · intro hall
        have := (findInvoiceOnOthers_eq_none chains h _).mpr hall
        rw [hfind] at this
        exact absurd this (by simp)
  · intro hex
    cases hfind : findInvoiceOnOthers chains h
        (((checkoutNETWORK_CONFIGS env).map Prod.snd).filter
          (fun n => n.chainId != (checkoutCurrentNetwork env wagmiChainId).chainId)) with
    | none =>
      obtain ⟨n, hn, hsome, hnz⟩ := hex
      have := (findInvoiceOnOthers_eq_none chains h _).mp hfind n hn hsome
      exact absurd this hnz
    | some nm =>
      obtain ⟨n, hn, hsome, hnz, hname⟩ := findInvoiceOnOthers_eq_some chains h _ nm hfind
      refine ⟨n, hn, hsome, hnz, ?_⟩
      rw [hout, hfind, hname]

/-- Oracle for the C4 witness: the invoice is absent everywhere. -/
def chainsAllZero : Nat → String → InvoiceData := fun _ _ =>
  { merchant := ZeroAddress, token := ZeroAddress, amount := 0, dueBy := 0
    isPaid := false, memo := "", logoURI := "", description := "", paidAt := 0 }

/-- Witness for C4: with the invoice absent on the active network and on the
other registered network, the lookup reports the generic not-found outcome. -/
theorem invoice_cross_network_lookup_witness :
    (fetchInvoice env₀ 84532 84532 chainsAllZero (some "0xh")).outcome
      = .notFoundGeneric :=
  (invoice_cross_network_lookup env₀ 84532 84532 chainsAllZero "0xh"
    "0x1111111111111111111111111111111111111111" (by rfl) (by decide)).1.mpr
    (by decide)
